import Mathlib

/-!
Verification of the episodic manipulation environment `micoenv/mico_robot_env.py`
(class `MicoEnv`).  The numeric model uses `ℚ` for the floating-point values of
the source; random draws of the process RNG are passed in as explicit inputs
(a `uniform(lo, hi)` draw is modelled as `lo + u * (hi - lo)` with a unit draw
`u`, and a `normal(μ, σ)` draw is an unconstrained input value).
-/

namespace MicoEnv

/-- Constructor arguments of `MicoEnv.__init__`, fixed at construction. -/
structure Config where
  n_substeps : ℕ
  has_object : Bool
  target_in_the_air : Bool
  distance_threshold : ℚ
  height_offset : ℚ
  reward_type : String
  observation_type : String
  fixed_goal : Bool
  use_gui : Bool
  randomize_textures : Bool
  normal_textures : Bool
  randomize_objects : Bool
  randomize_camera : Bool
  randomize_arm : Bool
deriving DecidableEq

/-- Table bounds `self.table_low = [-0.35, -0.25, 0.05]`. -/
def table_low : Fin 3 → ℚ := ![-(35/100), -(25/100), 5/100]

/-- Table bounds `self.table_high = [-0.2, 0.25, 0.2]`. -/
def table_high : Fin 3 → ℚ := ![-(20/100), 25/100, 20/100]

/-- Squared Euclidean norm of the difference of two 3-vectors; the square of
`goal_distance(goal_a, goal_b) = np.linalg.norm(goal_a - goal_b)`.  Working
with the square keeps the definition computable over `ℚ`; comparisons of the
distance against a bound are expressed through `distLt` below. -/
def goal_distance_sq (a b : Fin 3 → ℚ) : ℚ :=
  (a 0 - b 0) ^ 2 + (a 1 - b 1) ^ 2 + (a 2 - b 2) ^ 2

/-- The comparison `goal_distance(a, b) < c` of the source, expressed without a
square root: for `d = √s` with `s ≥ 0` one has `d < c ↔ (0 < c ∧ s < c²)`.
`distLt_iff_sqrt_lt` below proves this encoding against `Real.sqrt`. -/
def distLt (a b : Fin 3 → ℚ) (c : ℚ) : Bool :=
  decide (0 < c ∧ goal_distance_sq a b < c ^ 2)

/-- `MicoEnv.compute_reward(achieved_goal, desired_goal)`: distance below
`self.distance_threshold` gives 3 (else -1) in sparse mode and 5 (else 0) in
positive mode; any other `reward_type` falls off the `elif` chain and returns
Python's `None`, modelled as `none`. -/
def compute_reward (cfg : Config) (achieved_goal desired_goal : Fin 3 → ℚ) : Option ℚ :=
  if cfg.reward_type = "sparse" then
    some (if distLt achieved_goal desired_goal cfg.distance_threshold then 3 else -1)
  else if cfg.reward_type = "positive" then
    some (if distLt achieved_goal desired_goal cfg.distance_threshold then 5 else 0)
  else
    none

/-- The physics/actuator readings that `MicoEnv.state_vector` queries: the
gripper link pose and linear velocity (`p.getLinkState(armId, 6)`), the two
gripper joint positions (`p.getJointState(armId, 7)` and `(armId, 9)`), the
object base position (`p.getBasePositionAndOrientation(self.body)`), the
grasping flag (`arm.is_grasping()`), the episode goal (`self.goal`) and the
actuator's internal targets (`arm.goalPosition`, `arm.goalGripper`). -/
structure PhysState where
  grip_pos : Fin 3 → ℚ
  grip_velp : Fin 3 → ℚ
  joint7 : ℚ
  joint9 : ℚ
  obj_pos : Fin 3 → ℚ
  grasping : Bool
  goal : Fin 3 → ℚ
  armGoalPosition : Fin 3 → ℚ
  armGoalGripper : ℚ

/-- A numpy 3-array as a plain list of its entries. -/
def vec3ToList (v : Fin 3 → ℚ) : List ℚ := [v 0, v 1, v 2]

/-- `MicoEnv.state_vector`: the concatenation
`[grip_pos, goal, gripper_state, obj_pos, object_rel_pos, arm.goalPosition,
[arm.goalGripper], grip_velp, [is_grasping]]`, with the object fields zero
when `self.has_object` is false. -/
def state_vector (cfg : Config) (s : PhysState) : List ℚ :=
  let obj_pos := if cfg.has_object then vec3ToList s.obj_pos else [0, 0, 0]
  let object_rel_pos :=
    if cfg.has_object then vec3ToList (fun i => s.obj_pos i - s.grip_pos i)
    else [0, 0, 0]
  vec3ToList s.grip_pos ++ vec3ToList s.goal ++ [s.joint7, s.joint9] ++
    obj_pos ++ object_rel_pos ++ vec3ToList s.armGoalPosition ++
    [s.armGoalGripper] ++ vec3ToList s.grip_velp ++
    [if s.grasping then 1 else 0]

/-- `MicoEnv.get_state` simply returns `self.state_vector()`. -/
def get_state (cfg : Config) (s : PhysState) : List ℚ := state_vector cfg s

/-- The default constructor arguments of `MicoEnv.__init__`. -/
def defaultConfig : Config :=
  { n_substeps := 5, has_object := true, target_in_the_air := true
    distance_threshold := 1/10, height_offset := 6/100
    reward_type := "positive", observation_type := "low_dim"
    fixed_goal := true, use_gui := false, randomize_textures := false
    normal_textures := false, randomize_objects := false
    randomize_camera := false, randomize_arm := false }

/-- `MicoEnv._sample_goal`.  `normal_draw` carries the two values of the
`np.random.normal([-0.3, 0.2], 0.05)` draw (a normal draw is an unconstrained
input), `u` the unit draws of `np_random.uniform(table_low, table_high)` and
`air` the unit draw of `np_random.uniform(0, table_high[2])`.  The source
guard `self.np_random.uniform() < 1` is always true, so the airborne offset is
applied whenever `target_in_the_air` is set. -/
def sample_goal (cfg : Config) (normal_draw : Fin 2 → ℚ) (u : Fin 3 → ℚ)
    (air : ℚ) : Fin 3 → ℚ :=
  if cfg.fixed_goal then
    if cfg.target_in_the_air then ![-(40/100), 20/100, 30/100]
    else ![normal_draw 0, normal_draw 1, 3/100]
  else
    let goal : Fin 3 → ℚ := fun i => table_low i + u i * (table_high i - table_low i)
    let goal := Function.update goal 2 (3/100)
    if cfg.target_in_the_air then Function.update goal 2 (goal 2 + air * table_high 2)
    else goal

/-- One candidate object position in the sampling branch of
`MicoEnv._reset_sim`: `obj_pos = np_random.uniform(table_low, high, size=3)`
with `high = table_high.copy()` modified to `high[1] = 0.0` when
`self.fixed_goal`, followed by `obj_pos[2] = self.height_offset`.  `u` is the
unit draw of the uniform call. -/
def sampleObjPos (cfg : Config) (u : Fin 3 → ℚ) : Fin 3 → ℚ :=
  let high : Fin 3 → ℚ := fun i => if cfg.fixed_goal ∧ i = 1 then 0 else table_high i
  let p : Fin 3 → ℚ := fun i => table_low i + u i * (high i - table_low i)
  Function.update p 2 cfg.height_offset

/-- The rejection loop of `MicoEnv._reset_sim`: draw a candidate object
position and redraw while `goal_distance(obj_pos, self.goal) < 0.1`.  `us n`
is the unit draw of the `n`-th candidate; `fuel` bounds the number of
candidates so that the function is total, with `none` modelling a run that
exhausts the fuel without an accepted draw. -/
def rejectLoop (cfg : Config) (goal : Fin 3 → ℚ) (us : ℕ → Fin 3 → ℚ) :
    ℕ → Option (Fin 3 → ℚ)
  | 0 => none
  | fuel + 1 =>
    let p := sampleObjPos cfg (us 0)
    if distLt p goal (1/10) then rejectLoop cfg goal (fun n => us (n + 1)) fuel
    else some p

/-- The data `MicoEnv._reset_sim` fixes before rebuilding the scene: episode
goal, object spawn position, optional actuator targets, the grasping flag
passed to `set_graspable_object`, and whether the random sampling path ran
(`sampled = false` on the explicit-state path). -/
structure ResetDecode where
  goal : Fin 3 → ℚ
  obj_pos : Fin 3 → ℚ
  arm_goal_pos : Option (Fin 3 → ℚ)
  arm_goal_grip : Option ℚ
  should_be_grasping : Bool
  sampled : Bool

/-- The explicit-state branch of `MicoEnv._reset_sim`: after
`assert state.shape == (22,)` (modelled as `none` on shape mismatch) the
slices are `goal = state[3:6]`, `obj_pos = state[8:11]`,
`arm_goal_pos = state[14:17]`, `arm_goal_grip = state[17]` and
`should_be_grasping = state[21]` (used for its truth value). -/
def reset_decode (state : List ℚ) : Option ResetDecode :=
  if state.length = 22 then
    some { goal := fun i => state.getD (3 + (i : ℕ)) 0
           obj_pos := fun i => state.getD (8 + (i : ℕ)) 0
           arm_goal_pos := some (fun i => state.getD (14 + (i : ℕ)) 0)
           arm_goal_grip := some (state.getD 17 0)
           should_be_grasping := decide (state.getD 21 0 ≠ 0)
           sampled := false }
  else none

/-- The random draws a call to `_reset_sim` may consume: the normal draw of
`_sample_goal`, the unit draws of its two uniform calls, and the unit draws of
the object rejection loop. -/
structure Rng where
  normal2 : Fin 2 → ℚ
  goal_u : Fin 3 → ℚ
  air_u : ℚ
  obj_us : ℕ → Fin 3 → ℚ

/-- The goal/object selection phase of `MicoEnv._reset_sim`: with an explicit
22-element state the slices are decoded and no sampling happens; otherwise
`_sample_goal` and the rejection loop run. -/
def reset_episode_core (cfg : Config) (state : Option (List ℚ)) (rng : Rng)
    (fuel : ℕ) : Option ResetDecode :=
  match state with
  | some st => reset_decode st
  | none =>
    let goal := sample_goal cfg rng.normal2 rng.goal_u rng.air_u
    match rejectLoop cfg goal rng.obj_us fuel with
    | some obj =>
      some { goal := goal, obj_pos := obj, arm_goal_pos := none
             arm_goal_grip := none, should_be_grasping := false
             sampled := true }
    | none => none

/-- Outcome of a completed `_reset_sim` call: `failure` models `return False`
(only reachable from the caught restore exception) and `success` the final
`return True`. -/
inductive ResetOutcome where
  | success (d : ResetDecode)
  | failure

/-- `MicoEnv._reset_sim` end to end: after the goal/object phase and the scene
rebuild, `p.restoreState(fileName=state_file)` runs only when a `state_file`
is given; its `try/except` turns a restore exception into `return False`
(`ResetOutcome.failure`) instead of letting it propagate to the caller, and
every other completed run ends in `return True` (`ResetOutcome.success`).
`restore_ok` is the oracle for whether the physics-engine restore succeeds. -/
def reset_sim (cfg : Config) (state : Option (List ℚ))
    (state_file : Option String) (restore_ok : Bool) (rng : Rng) (fuel : ℕ) :
    Option ResetOutcome :=
  match reset_episode_core cfg state rng fuel with
  | none => none
  | some d =>
    match state_file with
    | some _ => if restore_ok then some (.success d) else some .failure
    | none => some (.success d)

/-- A rendered image buffer as returned by `self.render(mode="rgb_array")`:
its shape together with the pixel data, indexed row, column, channel. -/
structure Image where
  height : ℕ
  width : ℕ
  channels : ℕ
  data : ℕ → ℕ → ℕ → ℚ

/-- Numpy channel indexing `buf[:, :, c]` with its bounds check: `none` models
the `IndexError` raised when `c` is not a valid channel index. -/
def extract_channel (img : Image) (c : ℕ) : Option (ℕ → ℕ → ℚ) :=
  if c < img.channels then some (fun i j => img.data i j c) else none

/-- The `pixels_depth` arm of `MicoEnv._get_obs`:
`pixels = self.render(mode="rgb_array")`, then
`assert pixels.shape == (84, 84, 3)` (modelled as `none` when the assertion
fails), then `return pixels[:, :, 3]`. -/
def get_obs_pixels_depth (rendered : Image) : Option (ℕ → ℕ → ℚ) :=
  if rendered.height = 84 ∧ rendered.width = 84 ∧ rendered.channels = 3 then
    extract_channel rendered 3
  else none

/-- Componentwise `np.clip(a, a_min, a_max) = min(max(a, a_min), a_max)` on
3-vectors; numpy applies the lower bound first, so `a_min > a_max` yields
`a_max`. -/
def np_clip3 (a lo hi : Fin 3 → ℚ) : Fin 3 → ℚ :=
  fun i => min (max (a i) (lo i)) (hi i)

/-- The arm spawn position of `MicoEnv.init_arm`: `[0, 0, 0]` without arm
randomization, and otherwise the source's
`np.clip([0, 0, 0.03], [0, 0, 0.07], np.random.normal([0, 0, 0.05], 0.02))`,
whose argument order passes the constant base vector as the array to clip, the
constant `[0, 0, 0.07]` as the lower bound and the random draw as the upper
bound.  `normal_draw` is the (unconstrained) normal draw. -/
def arm_spawn_pos (randomize_arm : Bool) (normal_draw : Fin 3 → ℚ) : Fin 3 → ℚ :=
  if randomize_arm then np_clip3 ![0, 0, 3/100] ![0, 0, 7/100] normal_draw
  else ![0, 0, 0]

/-- Componentwise `np.clip(action, lo, hi)` on a 4-vector. -/
def np_clip4 (v : Fin 4 → ℚ) (lo hi : ℚ) : Fin 4 → ℚ :=
  fun i => min (max (v i) lo) hi

/-- The vector `MicoEnv._set_action` hands to `arm.apply_action`: the action
clipped to `[-1, 1]`, with the 4th component overwritten by 0, times 0.05. -/
def set_action_applied (v : Fin 4 → ℚ) : Fin 4 → ℚ :=
  fun i => Function.update (np_clip4 v (-1) 1) 3 0 i * (5/100)

/-- A heap of 4-element numpy arrays, indexed by references; models the
aliasing behaviour of the mutable arrays in `_set_action`. -/
structure Store where
  arrays : List (Fin 4 → ℚ)

/-- Dereference an array; `none` models an invalid reference. -/
def Store.read (σ : Store) (r : ℕ) : Option (Fin 4 → ℚ) := σ.arrays[r]?

/-- Allocate a fresh array holding `v`, returning the new heap and the new
reference. -/
def Store.alloc (σ : Store) (v : Fin 4 → ℚ) : Store × ℕ :=
  (⟨σ.arrays ++ [v]⟩, σ.arrays.length)

/-- Overwrite the array behind reference `r` in place. -/
def Store.write (σ : Store) (r : ℕ) (v : Fin 4 → ℚ) : Store :=
  ⟨σ.arrays.set r v⟩

/-- `MicoEnv._set_action` against the array heap: the caller's array is read
through its reference `r`; `np.clip(action, -1, 1)` allocates a fresh array
and rebinds the local name `action` to it; `action[3] = 0` mutates that fresh
array in place; `action.copy() * 0.05` allocates yet another array, which is
what `arm.apply_action` receives.  Returns the final heap and the applied
vector; `none` models an invalid reference. -/
def set_action (σ : Store) (r : ℕ) : Option (Store × (Fin 4 → ℚ)) :=
  match σ.read r with
  | none => none
  | some v =>
    let clipped := np_clip4 v (-1) 1
    let alloc1 := σ.alloc clipped
    let zeroed := Function.update clipped 3 0
    let σ2 := (alloc1.1).write alloc1.2 zeroed
    let applied := fun i => zeroed i * (5/100)
    let alloc2 := σ2.alloc applied
    some (alloc2.1, applied)

theorem goal_distance_sq_nonneg (a b : Fin 3 → ℚ) : 0 ≤ goal_distance_sq a b := by
  unfold goal_distance_sq; positivity

/-- The boolean `distLt a b c` holds exactly when the real Euclidean distance
between `a` and `b` is `< c`, justifying the square-free encoding. -/
theorem distLt_iff_sqrt_lt (a b : Fin 3 → ℚ) (c : ℚ) :
    distLt a b c = true ↔
      Real.sqrt (((a 0 : ℝ) - b 0) ^ 2 + ((a 1 : ℝ) - b 1) ^ 2 + ((a 2 : ℝ) - b 2) ^ 2)
        < (c : ℝ) := by
  unfold distLt
  rw [decide_eq_true_iff]
  have hs : (((a 0 : ℝ) - b 0) ^ 2 + ((a 1 : ℝ) - b 1) ^ 2 + ((a 2 : ℝ) - b 2) ^ 2)
      = ((goal_distance_sq a b : ℚ) : ℝ) := by
    unfold goal_distance_sq; push_cast; ring
  rw [hs]
  constructor
  · rintro ⟨hc, hlt⟩
    have hc' : (0 : ℝ) < (c : ℝ) := by exact_mod_cast hc
    rw [Real.sqrt_lt' hc']
    exact_mod_cast hlt
  · intro h
    have hc' : (0 : ℝ) < (c : ℝ) := lt_of_le_of_lt (Real.sqrt_nonneg _) h
    rw [Real.sqrt_lt' hc'] at h
    constructor
    · exact_mod_cast hc'
    · exact_mod_cast h

theorem le_sqrt_of_distLt_false (a b : Fin 3 → ℚ) (c : ℚ)
    (h : distLt a b c = false) :
    (c : ℝ) ≤ Real.sqrt (((a 0 : ℝ) - b 0) ^ 2 + ((a 1 : ℝ) - b 1) ^ 2
      + ((a 2 : ℝ) - b 2) ^ 2) := by
  by_contra hlt
  push_neg at hlt
  have ht := (distLt_iff_sqrt_lt a b c).mpr hlt
  rw [h] at ht
  exact Bool.false_ne_true ht

theorem state_vector_length (cfg : Config) (s : PhysState) :
    (state_vector cfg s).length = 22 := by
  cases hobj : cfg.has_object <;> simp [state_vector, vec3ToList, hobj]

/-- Claim C2: in sparse mode `compute_reward` returns exactly 3 when the
distance is below the threshold and -1 otherwise; in positive mode exactly 5
below the threshold and 0 otherwise; never any other value in these two
modes. -/
theorem compute_reward_two_values (cfg : Config) (a b : Fin 3 → ℚ) :
    (cfg.reward_type = "sparse" →
      compute_reward cfg a b =
        some (if distLt a b cfg.distance_threshold then 3 else -1)) ∧
    (cfg.reward_type = "positive" →
      compute_reward cfg a b =
        some (if distLt a b cfg.distance_threshold then 5 else 0)) := by
  constructor
  · intro h
    simp [compute_reward, h]
  · intro h
    have hns : cfg.reward_type ≠ "sparse" := by
      rw [h]; decide
    simp [compute_reward, h, hns]

/-- Witness for C2 at concrete configurations and inputs. -/
theorem compute_reward_two_values_witness :
    compute_reward
        ⟨5, true, true, 1/10, 6/100, "sparse", "low_dim", true, false,
          false, false, false, false, false⟩ ![0,0,0] ![0,0,0] = some 3 ∧
    compute_reward
        ⟨5, true, true, 1/10, 6/100, "positive", "low_dim", true, false,
          false, false, false, false, false⟩ ![0,0,0] ![1,0,0] = some 0 := by
  constructor
  · have h := (compute_reward_two_values
      ⟨5, true, true, 1/10, 6/100, "sparse", "low_dim", true, false,
        false, false, false, false, false⟩ ![0,0,0] ![0,0,0]).1 rfl
    rw [h]
    norm_num [distLt, goal_distance_sq]
  · have h := (compute_reward_two_values
      ⟨5, true, true, 1/10, 6/100, "positive", "low_dim", true, false,
        false, false, false, false, false⟩ ![0,0,0] ![1,0,0]).2 rfl
    rw [h]
    norm_num [distLt, goal_distance_sq]

/-- Claim C1: `state_vector` (and hence `get_state`) always yields exactly 22
numbers in the fixed field order gripper position(3), goal(3), gripper joint
positions(2), object position(3), object-relative-to-gripper(3), arm internal
goal position(3), arm internal goal gripper value(1), gripper linear
velocity(3), grasping flag(1); this is independent of the observation mode and
the randomization toggles, and the object fields are zero when no object is
configured. -/
theorem state_vector_shape (cfg : Config) (s : PhysState) :
    (state_vector cfg s).length = 22 ∧
    get_state cfg s = state_vector cfg s ∧
    (∀ cfg' : Config, cfg'.has_object = cfg.has_object →
        state_vector cfg' s = state_vector cfg s) ∧
    (∀ i : Fin 3, (state_vector cfg s).getD (i : ℕ) 0 = s.grip_pos i) ∧
    (∀ i : Fin 3, (state_vector cfg s).getD (3 + (i : ℕ)) 0 = s.goal i) ∧
    (state_vector cfg s).getD 6 0 = s.joint7 ∧
    (state_vector cfg s).getD 7 0 = s.joint9 ∧
    (∀ i : Fin 3, (state_vector cfg s).getD (8 + (i : ℕ)) 0 =
        if cfg.has_object then s.obj_pos i else 0) ∧
    (∀ i : Fin 3, (state_vector cfg s).getD (11 + (i : ℕ)) 0 =
        if cfg.has_object then s.obj_pos i - s.grip_pos i else 0) ∧
    (∀ i : Fin 3, (state_vector cfg s).getD (14 + (i : ℕ)) 0 = s.armGoalPosition i) ∧
    (state_vector cfg s).getD 17 0 = s.armGoalGripper ∧
    (∀ i : Fin 3, (state_vector cfg s).getD (18 + (i : ℕ)) 0 = s.grip_velp i) ∧
    (state_vector cfg s).getD 21 0 = (if s.grasping then 1 else 0) := by
  refine ⟨state_vector_length cfg s, rfl, ?_, ?_, ?_, ?_, ?_, ?_, ?_, ?_, ?_, ?_, ?_⟩
  · intro cfg' h
    simp only [state_vector, h]
  · intro i; fin_cases i <;> rfl
  · intro i; fin_cases i <;> rfl
  · rfl
  · rfl
  · intro i; fin_cases i <;>
      cases hobj : cfg.has_object <;> simp [state_vector, vec3ToList, hobj]
  · intro i; fin_cases i <;>
      cases hobj : cfg.has_object <;> simp [state_vector, vec3ToList, hobj]
  · intro i; fin_cases i <;>
      cases hobj : cfg.has_object <;> simp [state_vector, vec3ToList, hobj]
  · cases hobj : cfg.has_object <;> simp [state_vector, vec3ToList, hobj]
  · intro i; fin_cases i <;>
      cases hobj : cfg.has_object <;> simp [state_vector, vec3ToList, hobj]
  · cases hobj : cfg.has_object <;> simp [state_vector, vec3ToList, hobj]

/-- Witness for C1 at a concrete configuration and physics state. -/
theorem state_vector_shape_witness :
    (state_vector
        ⟨5, true, true, 1/10, 6/100, "positive", "low_dim", true, false,
          false, false, false, false, false⟩
        ⟨![1,2,3], ![0,0,0], 4, 5, ![6,7,8], true, ![9,10,11], ![0,0,0], 0⟩).length
      = 22 :=
  (state_vector_shape _ _).1

/-- Claim C3: whenever the rejection loop of `_reset_sim` terminates, the
accepted object position is at Euclidean distance at least 0.1 from the
sampled goal. -/
theorem rejectLoop_separation (cfg : Config) (goal : Fin 3 → ℚ)
    (us : ℕ → Fin 3 → ℚ) (fuel : ℕ) (p : Fin 3 → ℚ)
    (h : rejectLoop cfg goal us fuel = some p) :
    distLt p goal (1/10) = false ∧
    ((1/10 : ℚ) : ℝ) ≤ Real.sqrt (((p 0 : ℝ) - goal 0) ^ 2
      + ((p 1 : ℝ) - goal 1) ^ 2 + ((p 2 : ℝ) - goal 2) ^ 2) := by
  have hfalse : distLt p goal (1/10) = false := by
    induction fuel generalizing us with
    | zero => simp [rejectLoop] at h
    | succ n ih =>
      rw [rejectLoop] at h
      cases hc : distLt (sampleObjPos cfg (us 0)) goal (1/10) with
      | true =>
        rw [hc] at h
        simp only [if_true] at h
        exact ih _ h
      | false =>
        rw [hc] at h
        simp only [Bool.false_eq_true, if_false, Option.some.injEq] at h
        rw [← h]
        exact hc
  exact ⟨hfalse, le_sqrt_of_distLt_false _ _ _ hfalse⟩

/-- Witness for C3: with the default configuration (fixed goal disabled so the
sampling branch is exercised), a goal at the origin and unit draws all equal
to 1, the loop accepts the first candidate and the separation holds there. -/
theorem rejectLoop_separation_witness :
    rejectLoop { defaultConfig with fixed_goal := false } ![0, 0, 0]
        (fun _ => ![1, 1, 1]) 1
      = some (sampleObjPos { defaultConfig with fixed_goal := false } ![1, 1, 1]) ∧
    distLt (sampleObjPos { defaultConfig with fixed_goal := false } ![1, 1, 1])
        ![0, 0, 0] (1/10) = false := by
  have hc : distLt (sampleObjPos { defaultConfig with fixed_goal := false } ![1, 1, 1])
      ![0, 0, 0] (1/10) = false := by
    norm_num [distLt, sampleObjPos, goal_distance_sq, table_low, table_high,
      defaultConfig, Function.update, Fin.ext_iff]
  have hloop : rejectLoop { defaultConfig with fixed_goal := false } ![0, 0, 0]
      (fun _ => ![1, 1, 1]) 1
      = some (sampleObjPos { defaultConfig with fixed_goal := false } ![1, 1, 1]) := by
    rw [rejectLoop, hc]
    simp
  exact ⟨hloop, (rejectLoop_separation _ _ _ _ _ hloop).1⟩

/-- Claim C4: feeding the 22-element vector produced by `state_vector` back
into `_reset_sim` as the explicit state decodes (rather than samples) an
episode whose goal is the encoded goal field and whose object spawn position
is the encoded object-position field. -/
theorem reset_round_trip (cfg : Config) (s : PhysState) (rng : Rng) (fuel : ℕ) :
    ∃ d : ResetDecode,
      reset_episode_core cfg (some (state_vector cfg s)) rng fuel = some d ∧
      d.goal = s.goal ∧
      d.obj_pos = (fun i => if cfg.has_object then s.obj_pos i else 0) ∧
      d.sampled = false := by
  have hlen : (state_vector cfg s).length = 22 := state_vector_length cfg s
  refine ⟨{ goal := fun i => (state_vector cfg s).getD (3 + (i : ℕ)) 0
            obj_pos := fun i => (state_vector cfg s).getD (8 + (i : ℕ)) 0
            arm_goal_pos := some (fun i => (state_vector cfg s).getD (14 + (i : ℕ)) 0)
            arm_goal_grip := some ((state_vector cfg s).getD 17 0)
            should_be_grasping := decide ((state_vector cfg s).getD 21 0 ≠ 0)
            sampled := false }, ?_, ?_, ?_, rfl⟩
  · show reset_decode (state_vector cfg s) = _
    rw [reset_decode, if_pos hlen]
  · funext i
    fin_cases i <;> rfl
  · funext i
    fin_cases i <;> cases hobj : cfg.has_object <;>
      simp [state_vector, vec3ToList, hobj]

/-- Claim C6: a reset whose snapshot restore fails returns the boolean `False`
(modelled by `ResetOutcome.failure`) instead of raising, and a reset invoked
without a snapshot file skips the restore branch entirely and returns `True`
whatever the restore oracle would have said. -/
theorem reset_snapshot_failure (cfg : Config) (state : Option (List ℚ))
    (f : String) (rng : Rng) (fuel : ℕ) (d : ResetDecode)
    (h : reset_episode_core cfg state rng fuel = some d) :
    reset_sim cfg state (some f) false rng fuel = some ResetOutcome.failure ∧
    (∀ restore_ok : Bool,
      reset_sim cfg state none restore_ok rng fuel
        = some (ResetOutcome.success d)) := by
  unfold reset_sim
  rw [h]
  exact ⟨rfl, fun _ => rfl⟩

/-- Witness for C6 at a concrete reset: an explicit all-zero 22-state, once
with a snapshot file whose restore fails and once without a snapshot file. -/
theorem reset_snapshot_failure_witness :
    reset_sim defaultConfig (some (List.replicate 22 0)) (some "snap.bullet")
        false ⟨![0, 0], ![0, 0, 0], 0, fun _ => ![0, 0, 0]⟩ 0
      = some ResetOutcome.failure ∧
    reset_sim defaultConfig (some (List.replicate 22 0)) none false
        ⟨![0, 0], ![0, 0, 0], 0, fun _ => ![0, 0, 0]⟩ 0
      = some (ResetOutcome.success
          { goal := fun i => (List.replicate 22 (0 : ℚ)).getD (3 + (i : ℕ)) 0
            obj_pos := fun i => (List.replicate 22 (0 : ℚ)).getD (8 + (i : ℕ)) 0
            arm_goal_pos :=
              some (fun i => (List.replicate 22 (0 : ℚ)).getD (14 + (i : ℕ)) 0)
            arm_goal_grip := some ((List.replicate 22 (0 : ℚ)).getD 17 0)
            should_be_grasping := decide ((List.replicate 22 (0 : ℚ)).getD 21 0 ≠ 0)
            sampled := false }) := by
  have h : reset_episode_core defaultConfig (some (List.replicate 22 0))
      ⟨![0, 0], ![0, 0, 0], 0, fun _ => ![0, 0, 0]⟩ 0
      = some { goal := fun i => (List.replicate 22 (0 : ℚ)).getD (3 + (i : ℕ)) 0
               obj_pos := fun i => (List.replicate 22 (0 : ℚ)).getD (8 + (i : ℕ)) 0
               arm_goal_pos :=
                 some (fun i => (List.replicate 22 (0 : ℚ)).getD (14 + (i : ℕ)) 0)
               arm_goal_grip := some ((List.replicate 22 (0 : ℚ)).getD 17 0)
               should_be_grasping :=
                 decide ((List.replicate 22 (0 : ℚ)).getD 21 0 ≠ 0)
               sampled := false } := rfl
  have H := reset_snapshot_failure defaultConfig (some (List.replicate 22 0))
      "snap.bullet" ⟨![0, 0], ![0, 0, 0], 0, fun _ => ![0, 0, 0]⟩ 0 _ h
  exact ⟨H.1, H.2 false⟩

/-- Claim C7 is contradicted by the code (the shape assertion and the indexing
contradict each other): in `pixels_depth` mode the rendered buffer passes the
`(84, 84, 3)` assertion, yet `pixels[:, :, 3]` reads channel index 3 of a
3-channel buffer, which is out of bounds (valid indices are 0..2), so the
extraction never yields a depth map. -/
theorem get_obs_pixels_depth_out_of_bounds (img : Image)
    (hh : img.height = 84) (hw : img.width = 84) (hc : img.channels = 3) :
    extract_channel img 3 = none ∧ get_obs_pixels_depth img = none := by
  have h3 : ¬ (3 < img.channels) := by omega
  have he : extract_channel img 3 = none := by
    unfold extract_channel
    rw [if_neg h3]
  refine ⟨he, ?_⟩
  unfold get_obs_pixels_depth
  rw [if_pos ⟨hh, hw, hc⟩, he]

/-- Witness for C7 at a concrete 84×84×3 buffer. -/
theorem get_obs_pixels_depth_out_of_bounds_witness :
    extract_channel ⟨84, 84, 3, fun _ _ _ => 0⟩ 3 = none ∧
    get_obs_pixels_depth ⟨84, 84, 3, fun _ _ _ => 0⟩ = none :=
  get_obs_pixels_depth_out_of_bounds ⟨84, 84, 3, fun _ _ _ => 0⟩ rfl rfl rfl

/-- Counterexample for claim C8: a reset with the legal constructor argument
`height_offset = 0.3` (and `fixed_goal` disabled), zero goal draws and the
object draw `(1/2, 1/2, 1/2)` accepts the first candidate, and the resulting
object spawn has z-coordinate 0.3, strictly above the table bound
`table_high 2 = 0.2`: the spawn is neither inside the table box nor
independent of the configured height offset. -/
theorem obj_spawn_uniform_counterexample :
    reset_episode_core
        { defaultConfig with fixed_goal := false, height_offset := 3/10 } none
        ⟨![0, 0], ![0, 0, 0], 0, fun _ => ![1/2, 1/2, 1/2]⟩ 1
      = some { goal := sample_goal
                 { defaultConfig with fixed_goal := false, height_offset := 3/10 }
                 ![0, 0] ![0, 0, 0] 0
               obj_pos := sampleObjPos
                 { defaultConfig with fixed_goal := false, height_offset := 3/10 }
                 ![1/2, 1/2, 1/2]
               arm_goal_pos := none, arm_goal_grip := none
               should_be_grasping := false, sampled := true } ∧
    table_high 2 <
      sampleObjPos { defaultConfig with fixed_goal := false, height_offset := 3/10 }
        ![1/2, 1/2, 1/2] 2 := by
  have hc : distLt
      (sampleObjPos { defaultConfig with fixed_goal := false, height_offset := 3/10 }
        ![1/2, 1/2, 1/2])
      (sample_goal { defaultConfig with fixed_goal := false, height_offset := 3/10 }
        ![0, 0] ![0, 0, 0] 0) (1/10) = false := by
    norm_num [distLt, goal_distance_sq, sampleObjPos, sample_goal, table_low,
      table_high, defaultConfig, Function.update, Fin.ext_iff]
  constructor
  · show reset_episode_core _ none _ 1 = _
    simp only [reset_episode_core]
    rw [rejectLoop, hc]
    simp
  · have hz : sampleObjPos
        { defaultConfig with fixed_goal := false, height_offset := 3/10 }
        ![1/2, 1/2, 1/2] 2 = 3/10 := by
      simp [sampleObjPos, Function.update_same]
    rw [hz]
    norm_num [table_high]

theorem sampleObjPos_bounds (cfg : Config) (u : Fin 3 → ℚ)
    (hu : ∀ i, 0 ≤ u i ∧ u i ≤ 1) :
    table_low 0 ≤ sampleObjPos cfg u 0 ∧ sampleObjPos cfg u 0 ≤ table_high 0 ∧
    table_low 1 ≤ sampleObjPos cfg u 1 ∧
    sampleObjPos cfg u 1 ≤ (if cfg.fixed_goal then 0 else table_high 1) ∧
    sampleObjPos cfg u 2 = cfg.height_offset := by
  obtain ⟨h00, h01⟩ := hu 0
  obtain ⟨h10, h11⟩ := hu 1
  have e0 : sampleObjPos cfg u 0 = table_low 0 + u 0 * (table_high 0 - table_low 0) := by
    simp [sampleObjPos, Function.update, Fin.ext_iff]
  have e1 : sampleObjPos cfg u 1 = table_low 1 +
      u 1 * ((if cfg.fixed_goal then 0 else table_high 1) - table_low 1) := by
    cases hfg : cfg.fixed_goal <;>
      simp [sampleObjPos, Function.update, Fin.ext_iff, hfg]
  have e2 : sampleObjPos cfg u 2 = cfg.height_offset := by
    simp [sampleObjPos, Function.update_same]
  refine ⟨?_, ?_, ?_, ?_, e2⟩
  · rw [e0, table_low, table_high]
    norm_num
    nlinarith
  · rw [e0, table_low, table_high]
    norm_num
    nlinarith
  · rw [e1, table_low]
    cases hfg : cfg.fixed_goal <;> norm_num [table_high] <;> nlinarith
  · rw [e1, table_low]
    cases hfg : cfg.fixed_goal <;> norm_num [table_high] <;> nlinarith

/-- Claim C8, amended: every object position produced by the sampling path of
`_reset_sim` has its x-coordinate in `[table_low 0, table_high 0]`, its
y-coordinate in `[table_low 1, y_hi]` with `y_hi = 0` when `fixed_goal` is set
and `y_hi = table_high 1` otherwise, and its z-coordinate exactly equal to the
configured `height_offset` (not a uniform draw over the z-range, and the box
is not independent of the fixed-goal flag). -/
theorem obj_spawn_bounds (cfg : Config) (goal : Fin 3 → ℚ)
    (us : ℕ → Fin 3 → ℚ) (fuel : ℕ) (p : Fin 3 → ℚ)
    (hu : ∀ n i, 0 ≤ us n i ∧ us n i ≤ 1)
    (h : rejectLoop cfg goal us fuel = some p) :
    table_low 0 ≤ p 0 ∧ p 0 ≤ table_high 0 ∧
    table_low 1 ≤ p 1 ∧ p 1 ≤ (if cfg.fixed_goal then 0 else table_high 1) ∧
    p 2 = cfg.height_offset := by
  induction fuel generalizing us with
  | zero => simp [rejectLoop] at h
  | succ n ih =>
    rw [rejectLoop] at h
    cases hc : distLt (sampleObjPos cfg (us 0)) goal (1/10) with
    | true =>
      rw [hc] at h
      simp only [if_true] at h
      exact ih (fun k => us (k + 1)) (fun k i => hu (k + 1) i) h
    | false =>
      rw [hc] at h
      simp only [Bool.false_eq_true, if_false, Option.some.injEq] at h
      rw [← h]
      exact sampleObjPos_bounds cfg (us 0) (hu 0)

/-- Witness for the amended C8 at concrete draws: fixed goal disabled, goal at
the origin, all unit draws equal to 1; the loop accepts the first candidate
and the bounds hold, with the z-coordinate equal to the height offset. -/
theorem obj_spawn_bounds_witness :
    (∀ (n : ℕ) (i : Fin 3),
        0 ≤ (fun _ : ℕ => (![1, 1, 1] : Fin 3 → ℚ)) n i ∧
          (fun _ : ℕ => (![1, 1, 1] : Fin 3 → ℚ)) n i ≤ 1) ∧
    rejectLoop { defaultConfig with fixed_goal := false } ![0, 0, 0]
        (fun _ => ![1, 1, 1]) 1
      = some (sampleObjPos { defaultConfig with fixed_goal := false } ![1, 1, 1]) ∧
    sampleObjPos { defaultConfig with fixed_goal := false } ![1, 1, 1] 2
      = ({ defaultConfig with fixed_goal := false } : Config).height_offset := by
  have hu : ∀ (n : ℕ) (i : Fin 3),
      0 ≤ (fun _ : ℕ => (![1, 1, 1] : Fin 3 → ℚ)) n i ∧
        (fun _ : ℕ => (![1, 1, 1] : Fin 3 → ℚ)) n i ≤ 1 := by
    intro n i
    fin_cases i <;> norm_num
  have hc : distLt (sampleObjPos { defaultConfig with fixed_goal := false } ![1, 1, 1])
      ![0, 0, 0] (1/10) = false := by
    norm_num [distLt, sampleObjPos, goal_distance_sq, table_low, table_high,
      defaultConfig, Function.update, Fin.ext_iff]
  have hloop : rejectLoop { defaultConfig with fixed_goal := false } ![0, 0, 0]
      (fun _ => ![1, 1, 1]) 1
      = some (sampleObjPos { defaultConfig with fixed_goal := false } ![1, 1, 1]) := by
    rw [rejectLoop, hc]
    simp
  exact ⟨hu, hloop, (obj_spawn_bounds _ _ _ _ _ hu hloop).2.2.2.2⟩

/-- Claim C9 is contradicted by the code (the spec describes the intent, the
swapped `np.clip` argument order is the slip): with arm randomization enabled
and the normal draw `(-0.03, 0, 0.02)`, `init_arm` computes the spawn position
`min(max([0, 0, 0.03], [0, 0, 0.07]), draw) = (-0.03, 0, 0.02)`: its
x-coordinate is not 0 and its z-coordinate lies below the claimed interval
`[0.03, 0.07]`. -/
theorem arm_spawn_pos_failing_input :
    arm_spawn_pos true ![-(3/100), 0, 1/50] = ![-(3/100), 0, 1/50] ∧
    arm_spawn_pos true ![-(3/100), 0, 1/50] 0 ≠ 0 ∧
    arm_spawn_pos true ![-(3/100), 0, 1/50] 2 < 3/100 := by
  have he : arm_spawn_pos true ![-(3/100), 0, 1/50] = ![-(3/100), 0, 1/50] := by
    funext i
    fin_cases i <;> norm_num [arm_spawn_pos, np_clip3]
  refine ⟨he, ?_, ?_⟩ <;> rw [he] <;> norm_num

/-- Claim C5: `_set_action` clips each component of the 4-action to `[-1, 1]`,
forces the 4th component to exactly 0, scales by the fixed factor 0.05, and
delegates exactly that vector to `arm.apply_action`: the applied vector is
`set_action_applied` of the caller's array, its 4th component is exactly 0,
and every component lies in `[-0.05, 0.05]`. -/
theorem set_action_applied_spec (σ : Store) (r : ℕ) (v : Fin 4 → ℚ)
    (h : σ.read r = some v) :
    (∃ σ' : Store, set_action σ r = some (σ', set_action_applied v)) ∧
    set_action_applied v 3 = 0 ∧
    (∀ i : Fin 4,
      -(5/100) ≤ set_action_applied v i ∧ set_action_applied v i ≤ 5/100) := by
  refine ⟨⟨⟨((σ.arrays ++ [np_clip4 v (-1) 1]).set σ.arrays.length
      (Function.update (np_clip4 v (-1) 1) 3 0)) ++
        [fun i => Function.update (np_clip4 v (-1) 1) 3 0 i * (5/100)]⟩, ?_⟩, ?_, ?_⟩
  · unfold set_action
    rw [h]
    rfl
  · simp [set_action_applied, Function.update_same]
  · intro i
    rcases eq_or_ne i 3 with h3 | h3
    · subst h3
      constructor <;> simp [set_action_applied, Function.update_same] <;> norm_num
    · have e : set_action_applied v i = min (max (v i) (-1)) 1 * (5/100) := by
        simp [set_action_applied, Function.update_noteq h3, np_clip4]
      have h1 : (-1 : ℚ) ≤ min (max (v i) (-1)) 1 :=
        le_min (le_trans (by norm_num) (le_max_right _ _)) (by norm_num)
      have h2 : min (max (v i) (-1)) 1 ≤ 1 := min_le_right _ _
      rw [e]
      constructor <;> nlinarith

/-- Witness for C5 at a concrete heap holding the action `(2, -3, 1/2, 7)`. -/
theorem set_action_applied_spec_witness :
    Store.read ⟨[![2, -3, 1/2, 7]]⟩ 0 = some ![2, -3, 1/2, 7] ∧
    (∃ σ' : Store, set_action ⟨[![2, -3, 1/2, 7]]⟩ 0
        = some (σ', set_action_applied ![2, -3, 1/2, 7])) ∧
    set_action_applied ![2, -3, 1/2, 7] 3 = 0 := by
  have h : Store.read ⟨[![2, -3, 1/2, 7]]⟩ 0 = some ![2, -3, 1/2, 7] := rfl
  have H := set_action_applied_spec _ _ _ h
  exact ⟨h, H.1, H.2.1⟩

/-- Claim C10: `_set_action` never mutates the caller's action array: the clip
allocates a fresh array, and the in-place zeroing of the 4th component and the
0.05 scaling touch only that copy, so after the call the caller's reference
still reads its original values while the actuator receives the transformed
vector. -/
theorem set_action_frame (σ : Store) (r : ℕ) (v : Fin 4 → ℚ)
    (h : σ.read r = some v) :
    ∃ σ' : Store,
      set_action σ r = some (σ', set_action_applied v) ∧
      σ'.read r = some v := by
  have hr : r < σ.arrays.length := by
    by_contra hge
    push_neg at hge
    rw [Store.read, List.getElem?_eq_none hge] at h
    exact Option.noConfusion h
  refine ⟨⟨((σ.arrays ++ [np_clip4 v (-1) 1]).set σ.arrays.length
      (Function.update (np_clip4 v (-1) 1) 3 0)) ++
        [fun i => Function.update (np_clip4 v (-1) 1) 3 0 i * (5/100)]⟩, ?_, ?_⟩
  · unfold set_action
    rw [h]
    rfl
  · rw [Store.read]
    have hlen2 : r < ((σ.arrays ++ [np_clip4 v (-1) 1]).set σ.arrays.length
        (Function.update (np_clip4 v (-1) 1) 3 0)).length := by
      rw [List.length_set, List.length_append]
      simp
      omega
    rw [List.getElem?_append_left hlen2,
      List.getElem?_set_ne (by omega : σ.arrays.length ≠ r),
      List.getElem?_append_left hr]
    exact h

/-- Witness for C10: the caller's array `(2, -3, 1/2, 7)` (with components out
of `[-1, 1]` and a non-zero 4th component) reads back unchanged after
`_set_action`. -/
theorem set_action_frame_witness :
    Store.read ⟨[![2, -3, 1/2, 7]]⟩ 0 = some ![2, -3, 1/2, 7] ∧
    (∃ σ' : Store, set_action ⟨[![2, -3, 1/2, 7]]⟩ 0
        = some (σ', set_action_applied ![2, -3, 1/2, 7]) ∧
      σ'.read 0 = some ![2, -3, 1/2, 7]) := by
  have h : Store.read ⟨[![2, -3, 1/2, 7]]⟩ 0 = some ![2, -3, 1/2, 7] := rfl
  exact ⟨h, set_action_frame _ _ _ h⟩

end MicoEnv